import Mathlib

/-!
Verification of the cloud storage abstraction layer of
`comfyui-save-file-extended`.

The Python sources under `src/comfyui_save_file_extended/cloud/` are shallowly
embedded below.  Pure string manipulation (Python `str.strip`, `str.split`,
`"/".join`, `urllib.parse.urlparse` on the shapes this code uses) is modelled
by executable Lean functions over `List Char`; external library behaviour
(`json.loads`, `mimetypes.guess_type`, SHA-256, the network SDKs) is abstracted
into oracle parameters, and code that performs backend calls is embedded as a
function of an explicit oracle describing the backend's responses, with an
explicit trace of the calls the code makes where a claim is about those calls.
-/

namespace SaveFileExtended

/-! ## Python string primitives -/

/-- Python `str.strip('/')`-style left strip of a single character. -/
def stripCharLeftL (c : Char) (l : List Char) : List Char :=
  l.dropWhile (· = c)

/-- Right strip of a single character. -/
def stripCharRightL (c : Char) (l : List Char) : List Char :=
  (l.reverse.dropWhile (· = c)).reverse

/-- Python `s.strip(c)` for a one-character strip set. -/
def stripCharL (c : Char) (l : List Char) : List Char :=
  stripCharRightL c (stripCharLeftL c l)

/-- Python `s.strip()` (whitespace on both ends). -/
def stripWsL (l : List Char) : List Char :=
  (((l.dropWhile Char.isWhitespace).reverse.dropWhile Char.isWhitespace)).reverse

/-- Python `sep.join(parts)` for a single-character separator. -/
def joinCharL (c : Char) : List (List Char) → List Char
  | [] => []
  | [p] => p
  | p :: ps => p ++ c :: joinCharL c ps

/-- Python `s.split(c)` (single-character separator, no maxsplit):
always returns at least one part. -/
def splitCharL (c : Char) : List Char → List (List Char)
  | [] => [[]]
  | a :: rest =>
    let r := splitCharL c rest
    if a = c then [] :: r
    else (a :: r.headD []) :: r.tail

/-- Python `s.split(c, 1)`: split on the first occurrence only. -/
def splitOnceCharL (c : Char) : List Char → List Char × Option (List Char)
  | [] => ([], none)
  | a :: rest =>
    if a = c then ([], some rest)
    else
      let r := splitOnceCharL c rest
      (a :: r.1, r.2)

/-- Membership of a character, Python `c in s`. -/
def containsCharL (c : Char) (l : List Char) : Bool :=
  l.any (· = c)

/-- Whether `pat` occurs as a contiguous sublist, Python `pat in s`. -/
def containsSubL (pat : List Char) : List Char → Bool
  | [] => pat.isEmpty
  | a :: rest => pat.isPrefixOf (a :: rest) || containsSubL pat rest

/-- Split at the first occurrence of a multi-character separator:
`some (before, after)` when found. -/
def breakOnSubL (pat : List Char) : List Char → Option (List Char × List Char)
  | [] => if pat.isEmpty then some ([], []) else none
  | a :: rest =>
    if pat.isPrefixOf (a :: rest) then some ([], (a :: rest).drop pat.length)
    else match breakOnSubL pat rest with
      | some (b, c) => some (a :: b, c)
      | none => none

/-! String-level wrappers. -/

def pyStripChar (c : Char) (s : String) : String := ⟨stripCharL c s.data⟩
def pyLStripChar (c : Char) (s : String) : String := ⟨stripCharLeftL c s.data⟩
def pyStripWs (s : String) : String := ⟨stripWsL s.data⟩
def pySplitChar (c : Char) (s : String) : List String :=
  (splitCharL c s.data).map String.mk
def pyJoinChar (c : Char) (parts : List String) : String :=
  ⟨joinCharL c (parts.map String.data)⟩
def pyContainsChar (c : Char) (s : String) : Bool := containsCharL c s.data
def pyContainsSub (pat s : String) : Bool := containsSubL pat.data s.data
def pyStartsWithChar (c : Char) (s : String) : Bool :=
  match s.data with
  | [] => false
  | a :: _ => a = c

/-- ASCII lowercasing of one character (Python `str.lower()` restricted to
the ASCII range, which is all this code compares). -/
def lowerCharPy (c : Char) : Char :=
  if 'A' ≤ c ∧ c ≤ 'Z' then Char.ofNat (c.toNat + 32) else c

/-- Python `s.lower()` (ASCII). -/
def pyLower (s : String) : String := ⟨s.data.map lowerCharPy⟩

/-- Python truthiness of an optional string: `None` and `""` are falsy. -/
def pyTruthy : Option String → Bool
  | none => false
  | some s => s ≠ ""

/-- Python `a or b` on optional strings: `a` when truthy, else `b` as-is. -/
def pyOr (a b : Option String) : Option String :=
  if pyTruthy a then a else b

/-! ## `urllib.parse.urlparse`, modelled for the `scheme://netloc/path`
shapes the adapters feed it (no query/fragment/params appear in this code). -/

structure UrlParts where
  scheme : String
  netloc : String
  path : String
  deriving Repr, DecidableEq

def urlparse (s : String) : UrlParts :=
  match breakOnSubL "://".data s.data with
  | some (before, after) =>
    let netloc := after.takeWhile (· ≠ '/')
    let path := after.drop netloc.length
    ⟨⟨before⟩, ⟨netloc⟩, ⟨path⟩⟩
  | none => ⟨"", "", s⟩

/-! ## Backend Registry — `cloud/__init__.py`, `get_uploader` -/

/-- The provider table of `get_uploader` (`cloud/__init__.py` lines 15–26),
verbatim: note it has ten entries. -/
def providers : List (String × String) :=
  [ ("AWS S3", ".s3:Uploader")
  , ("S3-Compatible", ".s3_compatible:Uploader")
  , ("Google Cloud Storage", ".gcs:Uploader")
  , ("Azure Blob Storage", ".azure_blob:Uploader")
  , ("Backblaze B2", ".b2:Uploader")
  , ("Dropbox", ".dropbox_client:Uploader")
  , ("Google Drive", ".gdrive:Uploader")
  , ("OneDrive", ".onedrive:Uploader")
  , ("FTP", ".ftp_client:Uploader")
  , ("Supabase Storage", ".supabase_storage:Uploader")
  ]

/-- `get_uploader` (`cloud/__init__.py` lines 28–35): dictionary lookup, then
`if not dotted: raise ValueError(...)`; on success the dotted path is resolved
to the adapter class (modelled by returning the dotted path). -/
def get_uploader (provider_name : String) : Except String String :=
  match providers.lookup provider_name with
  | none =>
    .error ("[SaveFileExtended:get_uploader] Unsupported cloud provider: " ++ provider_name)
  | some dotted =>
    if dotted = "" then
      .error ("[SaveFileExtended:get_uploader] Unsupported cloud provider: " ++ provider_name)
    else .ok dotted

/-- The eleven provider names the spec enumerates. -/
def elevenProviderNames : List String :=
  [ "AWS S3", "S3-Compatible", "Google Cloud Storage", "Azure Blob Storage"
  , "Backblaze B2", "Dropbox", "Google Drive", "OneDrive", "FTP"
  , "Supabase Storage", "UploadThing" ]

/-! ## AWS S3 address resolver — `cloud/s3.py`, `_parse_bucket_and_key` -/

/-- `s3.py` lines 38–57. -/
def s3ParseBucketAndKey (bucket_link cloud_folder_path filename : String) :
    String × String :=
  let parsed := urlparse bucket_link
  let bucketAndBase : String × String :=
    if parsed.scheme ≠ "s3" then
      let stripped := pyStripWs bucket_link
      let segs := pySplitChar '/' stripped
      (segs.headD "", pyJoinChar '/' segs.tail)
    else
      (parsed.netloc, pyLStripChar '/' parsed.path)
  let bucket := bucketAndBase.1
  let basePfx := bucketAndBase.2
  let parts := [basePfx, cloud_folder_path].filter (fun p => p ≠ "")
  let pfx := pyJoinChar '/'
    ((parts.map (pyStripChar '/')).filter (fun p => p ≠ ""))
  let key := (if pfx ≠ "" then pfx ++ "/" else "") ++ filename
  (bucket, key)

/-! ## Bytes, transfer items, results, callbacks -/

/-- A byte string; only its contents and length matter to the embedded code. -/
abbrev Bytes := List Nat

/-- A Transfer Item for upload: `{"filename": ..., "content": ...}`. -/
structure UpItem where
  filename : String
  content : Bytes
  deriving Repr, DecidableEq

/-- A Transfer Result dict (`provider`, `bucket`, `path`, optional `url`). -/
structure CloudResult where
  provider : String
  bucket : String
  path : String
  url : Option String
  deriving Repr, DecidableEq

/-- Byte-progress event passed to `byte_callback`. -/
structure ByteEvent where
  delta : Nat
  sent : Nat
  total : Option Nat
  index : Nat
  filename : String
  path : String
  deriving Repr, DecidableEq

/-- Item-progress event passed to `progress_callback`. -/
structure ItemEvent where
  index : Nat
  filename : String
  path : String
  deriving Repr, DecidableEq

/-- The adapters invoke every callback inside `try: ... except Exception: pass`,
so a callback (which may raise, modelled by `Except`) never influences the
adapter's control flow or return value. -/
def invokeIgnoring {α E : Type} (cb : Option (α → Except E Unit)) (ev : α) : Unit :=
  match cb with
  | none => ()
  | some f => match f ev with
    | .ok _ => ()
    | .error _ => ()

/-! ## Content types sent on single-object upload (C5)

`s3.py` line 79, `azure_blob.py` line 60 and `b2.py` line 47 hardcode
`"image/png"`; `gcs.py` line 53, `s3_compatible.py` line 84,
`supabase_storage.py` line 80 and `upload_thing.py` line 208 compute
`mimetypes.guess_type(filename)[0] or "application/octet-stream"`.
`mimetypes.guess_type` is standard-library behaviour, abstracted as a
`guess` oracle returning `none` for an unknown extension. -/

def mimeOrOctet (guess : String → Option String) (filename : String) : String :=
  match guess filename with
  | some t => if t = "" then "application/octet-stream" else t
  | none => "application/octet-stream"

def s3UploadContentType (_filename : String) : String := "image/png"

def azureUploadContentType (_filename : String) : String := "image/png"

def b2UploadContentType (_filename : String) : String := "image/png"

def gcsUploadContentType (guess : String → Option String) (filename : String) : String :=
  mimeOrOctet guess filename

def s3CompatibleUploadContentType (guess : String → Option String) (filename : String) : String :=
  mimeOrOctet guess filename

def supabaseUploadContentType (guess : String → Option String) (filename : String) : String :=
  mimeOrOctet guess filename

/-! ## Chunked-transfer path selection and chunk deltas (C3)

`dropbox_client.py` line 313: `if byte_callback and len(body) > 4 * 1024 * 1024:`
`azure_blob.py` line 90: `if byte_callback and len(body) > 8 * 1024 * 1024:` -/

def dropboxChunkSize : Nat := 4 * 1024 * 1024

def azureChunkSize : Nat := 8 * 1024 * 1024

/-- Dropbox `upload_many` takes the upload-session (chunked) path for an item
iff a byte callback was supplied and the payload is strictly larger than
4 MiB (`dropbox_client.py` line 313). -/
def dropboxUsesChunked (hasByteCb : Bool) (size : Nat) : Bool :=
  hasByteCb && decide (dropboxChunkSize < size)

/-- Azure `upload_many` takes the staged-blocks (chunked) path for an item
iff a byte callback was supplied and the payload is strictly larger than
8 MiB (`azure_blob.py` line 90). -/
def azureUsesChunked (hasByteCb : Bool) (size : Nat) : Bool :=
  hasByteCb && decide (azureChunkSize < size)

/-- Successive slice sizes of a loop that consumes `r` bytes in chunks of
`cm + 1` bytes (`body[sent:sent+CHUNK]` slices): full chunks, then the
remainder. -/
def chunkStep (cm : Nat) : Nat → List Nat
  | 0 => []
  | r + 1 =>
    if r + 1 ≤ cm + 1 then [r + 1]
    else (cm + 1) :: chunkStep cm (r + 1 - (cm + 1))
  termination_by r => r
  decreasing_by omega

/-- The `delta` values Azure's staged-block loop reports for a payload of
`total` bytes (`azure_blob.py` lines 94–102: `range(0, len(body), chunk_size)`
with 8 MiB chunks). -/
def azureStagedDeltas (total : Nat) : List Nat :=
  chunkStep (azureChunkSize - 1) total

/-- The `delta` values Dropbox's upload-session loop reports for a payload of
`total` bytes (`dropbox_client.py` lines 314–335): one 4 MiB chunk at
`files_upload_session_start`, then `body[sent:sent+CHUNK]` slices.  Only
reached when `total > dropboxChunkSize`. -/
def dropboxSessionDeltas (total : Nat) : List Nat :=
  dropboxChunkSize :: chunkStep (dropboxChunkSize - 1) (total - dropboxChunkSize)

/-! ## AWS S3 transfer engine — `cloud/s3.py`, `Uploader` -/

/-- One `put_object` call as issued by the S3 adapter. -/
structure S3PutCall where
  bucket : String
  key : String
  body : Bytes
  contentType : String
  deriving Repr, DecidableEq

/-- `s3.py` lines 73–87 (`Uploader.upload`): resolve the address, issue one
`put_object` with `ContentType="image/png"`, return the result dict.  The
backend call is recorded; the result is what the code returns when the call
does not raise. -/
def s3Upload (image_bytes : Bytes) (filename bucket_link cloud_folder_path : String) :
    CloudResult × S3PutCall :=
  let bk := s3ParseBucketAndKey bucket_link cloud_folder_path filename
  let bucket := bk.1
  let key := bk.2
  let call : S3PutCall := ⟨bucket, key, image_bytes, s3UploadContentType filename⟩
  let url := "https://" ++ bucket ++ ".s3.amazonaws.com/" ++ key
  (⟨"AWS S3", bucket, key, some url⟩, call)

/-- `s3.py` lines 89–103 (`Uploader.upload_many`): a sequential loop that
resolves each item's address, issues `put_object` (the `put` oracle; a raised
backend exception is the oracle's `.error`, which propagates and aborts the
loop), and appends one result dict per item. -/
def s3UploadMany {E : Type} (put : S3PutCall → Except E Unit)
    (items : List UpItem) (bucket_link cloud_folder_path : String) :
    Except E (List CloudResult) :=
  match items with
  | [] => .ok []
  | it :: rest =>
    let bk := s3ParseBucketAndKey bucket_link cloud_folder_path it.filename
    let bucket := bk.1
    let key := bk.2
    match put ⟨bucket, key, it.content, "image/png"⟩ with
    | .error e => .error e
    | .ok _ =>
      match s3UploadMany put rest bucket_link cloud_folder_path with
      | .error e => .error e
      | .ok rs =>
        let url := "https://" ++ bucket ++ ".s3.amazonaws.com/" ++ key
        .ok (⟨"AWS S3", bucket, key, some url⟩ :: rs)

/-! ## Supabase Storage — `cloud/supabase_storage.py` -/

/-- Errors visible to the Supabase adapter: the SDK's `StorageApiError`
(inspected by the adapter), the `PermissionError` the adapter itself raises,
and any other exception. -/
inductive SupaErr where
  | api (msg : String)
  | perm (msg : String)
  | other (msg : String)
  deriving Repr, DecidableEq

/-- `supabase_storage.py` lines 55–64 (`_parse_bucket_and_path`). -/
def supabaseParseBucketAndPath (bucket_link cloud_folder_path filename : String) :
    String × String :=
  let parsed := urlparse bucket_link
  let bucket :=
    if parsed.scheme ≠ "" then
      (if parsed.netloc ≠ "" then parsed.netloc else pyLStripChar '/' parsed.path)
    else
      (pySplitChar '/' (pyStripWs bucket_link)).headD ""
  let pfx := pyJoinChar '/'
    (([cloud_folder_path].filter
        (fun p => p ≠ "" && pyStripChar '/' p ≠ "")).map (pyStripChar '/'))
  let path := (if pfx ≠ "" then pfx ++ "/" else "") ++ filename
  (bucket, path)

/-- `supabase_storage.py` lines 113–119: `except StorageApiError as e` — when
the error text mentions row-level security (case-insensitively) and the key's
role is not `service_role`, re-raise as `PermissionError`; otherwise re-raise
unchanged.  Non-`StorageApiError` exceptions are not caught. -/
def supaMapUploadErr (role : Option String) (bucket : String) : SupaErr → SupaErr
  | .api msg =>
    if pyContainsSub "row-level security" (pyLower msg) && role ≠ some "service_role" then
      .perm ("Supabase Storage upload blocked by RLS. Use a service_role key, or add an INSERT policy on storage.objects for bucket_id=" ++ bucket ++ ".")
    else .api msg
  | e => e

/-- `supabase_storage.py` lines 99–132 (`Uploader.upload_many`): sequential
loop; per item an `upload` call on the storage client (the `put` oracle,
taking bucket, path, body and the content type from `file_options`), RLS error
mapping, best-effort byte/progress callbacks, a `get_public_url` call
(`pubUrl` oracle) and one appended result dict.  `role` abstracts
`_jwt_role` of the parsed key. -/
def supabaseUploadMany {CE : Type}
    (put : String → String → Bytes → String → Except SupaErr Unit)
    (pubUrl : String → String)
    (guess : String → Option String)
    (role : Option String)
    (items : List UpItem) (bucket_link cloud_folder_path : String)
    (progress_cb : Option (ItemEvent → Except CE Unit))
    (byte_cb : Option (ByteEvent → Except CE Unit))
    (idx : Nat := 0) :
    Except SupaErr (List CloudResult) :=
  let bucket := (supabaseParseBucketAndPath bucket_link cloud_folder_path "dummy").1
  match items with
  | [] => .ok []
  | it :: rest =>
    let path := (supabaseParseBucketAndPath bucket_link cloud_folder_path it.filename).2
    let ctype := supabaseUploadContentType guess it.filename
    match put bucket path it.content ctype with
    | .error e => .error (supaMapUploadErr role bucket e)
    | .ok _ =>
      let _ := invokeIgnoring byte_cb
        ⟨it.content.length, it.content.length, some it.content.length, idx, it.filename, path⟩
      let url := pubUrl path
      let _ := invokeIgnoring progress_cb ⟨idx, it.filename, path⟩
      match supabaseUploadMany put pubUrl guess role rest bucket_link cloud_folder_path
          progress_cb byte_cb (idx + 1) with
      | .error e => .error e
      | .ok rs => .ok (⟨"Supabase Storage", bucket, path, some url⟩ :: rs)

/-! ## Credential parsers (C4)

`json.loads` is standard-library behaviour, abstracted as a `loads` oracle:
`none` models a raised exception (malformed JSON), `some data` models a parsed
object whose string fields are read with `.get`. -/

/-- `s3.py` lines 8–35 (`_parse_credentials`): note that every path returns a
triple — the `except Exception: pass` around `json.loads` swallows malformed
JSON, and no branch raises. -/
def s3ParseCredentials (loads : String → Option (List (String × String)))
    (api_key : String) : Option String × Option String × Option String :=
  if api_key = "" then (none, none, none)
  else
    let key := pyStripWs api_key
    if pyStartsWithChar '{' key then
      match loads key with
      | none => (none, none, none)
      | some data =>
        (pyOr (data.lookup "access_key") (data.lookup "aws_access_key_id"),
         pyOr (data.lookup "secret_key") (data.lookup "aws_secret_access_key"),
         data.lookup "region")
    else if pyContainsChar ':' key then
      let parts := pySplitChar ':' key
      ((if 2 ≤ parts.length then parts.get? 0 else none),
       (if 2 ≤ parts.length then parts.get? 1 else none),
       (if 3 ≤ parts.length then parts.get? 2 else none))
    else (none, none, none)

/-- `b2.py` lines 7–12 (`_parse_creds`): raises unless the key contains a
colon, else splits on the first colon and strips both halves. -/
def b2ParseCreds (api_key : String) : Except String (String × String) :=
  if ¬ pyContainsChar ':' api_key then
    .error "Backblaze B2 api_key must be keyId:key"
  else
    let sp := splitOnceCharL ':' api_key.data
    .ok (pyStripWs ⟨sp.1⟩, pyStripWs ⟨sp.2.getD []⟩)

/-! ## Progress/Error Reporting Bridge — `cloud/_logging.py` (C7) -/

/-- `SENSITIVE_KEYS` (`_logging.py` lines 8–17). -/
def SENSITIVE_KEYS : List String :=
  [ "api_key", "access_key", "secret_key", "client_secret"
  , "authorization", "token", "access_token", "refresh_token" ]

/-- A Python value as handled by `_sanitize`: strings, numbers, lists/tuples
and dicts with string keys. -/
inductive PyVal where
  | str (s : String)
  | num (n : Int)
  | list (vs : List PyVal)
  | dict (kvs : List (String × PyVal))

mutual

/-- `_sanitize` (`_logging.py` lines 20–30): mask dict values under sensitive
keys, recurse into containers, truncate strings longer than 128 characters to
a 125-character head plus an ellipsis. -/
def sanitizeVal : PyVal → PyVal
  | .str s => if 128 < s.length then .str (String.mk (s.data.take 125) ++ "...") else .str s
  | .num n => .num n
  | .list vs => .list (sanitizeList vs)
  | .dict kvs => .dict (sanitizeKVs kvs)

def sanitizeList : List PyVal → List PyVal
  | [] => []
  | v :: vs => sanitizeVal v :: sanitizeList vs

def sanitizeKVs : List (String × PyVal) → List (String × PyVal)
  | [] => []
  | (k, v) :: kvs =>
    (k, if pyLower k ∈ SENSITIVE_KEYS then .str "***" else sanitizeVal v) :: sanitizeKVs kvs

end

/-- The kwargs sanitization in `log_exceptions` (`_logging.py` line 66):
`safe_kwargs = ("***" if k.lower() in SENSITIVE_KEYS else _sanitize(v))`
for each kwargs entry. -/
def sanitizeKwargs (kwargs : List (String × PyVal)) : List (String × PyVal) :=
  kwargs.map (fun kv =>
    (kv.1, if pyLower kv.1 ∈ SENSITIVE_KEYS then PyVal.str "***" else sanitizeVal kv.2))

/-! ## Dropbox credential resolution — `cloud/dropbox_client.py` (C4, C8)

The OAuth token endpoint (`_token_request`), the on-disk token cache
(`_read_cached_tokens` / `_write_cached_tokens`) and SHA-256 (`_cache_key`)
are external effects, abstracted as oracles; the exchanges the code performs
and the cache entries it writes are recorded in an explicit trace. -/

/-- The form payload of a `_token_request` call. -/
inductive TokenPayload where
  | authCode (code : String)
  | refreshTok (tok : String)
  deriving Repr, DecidableEq

/-- The JSON body a successful token exchange returns (the fields this code
reads). -/
structure TokenResp where
  refresh_token : Option String
  access_token : Option String
  deriving Repr, DecidableEq

/-- A cached-token file entry (`_write_cached_tokens`, lines 187–191). -/
structure CacheEntry where
  app_key : String
  refresh_token : String
  access_token : Option String
  deriving Repr, DecidableEq

/-- The token exchanges performed and cache entries written during one
credential resolution. -/
structure DbxTrace where
  exchanges : List TokenPayload
  cacheWrites : List (String × CacheEntry)
  deriving Repr, DecidableEq

/-- The credential dict `_parse_credentials` returns: `refresh_token` /
`app_key` / `app_secret` / `access_token` keys (absent keys are `none`),
plus the `_generated_refresh_token` marker. -/
structure DropboxCreds where
  refresh_token : Option String
  app_key : Option String
  app_secret : Option String
  access_token : Option String
  generated : Option String
  deriving Repr, DecidableEq

/-- `_cache_key` (`dropbox_client.py` lines 143–147): the SHA-256 hex digest
(`hash` oracle) of `f"{app_key}:{app_secret}"`. -/
def dropboxCacheKey (hash : String → String) (app_key app_secret : String) : String :=
  hash (app_key ++ ":" ++ app_secret)

/-- `Uploader._parse_credentials` (`dropbox_client.py` lines 28–109). -/
def dropboxParseCredentials
    (hash : String → String)
    (cacheRead : String → Option CacheEntry)
    (endpoint : TokenPayload → Except String TokenResp)
    (loads : String → Option (List (String × String)))
    (api_key : String) : Except String DropboxCreds × DbxTrace :=
  let key := pyStripWs api_key
  if key = "" then
    (.error "[SaveFileExtended:dropbox_client:_parse_credentials] Dropbox cloud_api_key is required", ⟨[], []⟩)
  else if pyStartsWithChar '{' key then
    match loads key with
    | none => (.error "json.loads raised", ⟨[], []⟩)
    | some data =>
      let app_key := pyOr (data.lookup "app_key") (data.lookup "client_id")
      let app_secret := pyOr (data.lookup "app_secret") (data.lookup "client_secret")
      let refresh0 := data.lookup "refresh_token"
      let access0 := pyOr (data.lookup "access_token") (data.lookup "token")
      let auth_code := pyOr (data.lookup "authorization_code")
        (pyOr (data.lookup "auth_code")
          (pyOr (data.lookup "code") (data.lookup "access_code")))
      let cached : Option CacheEntry :=
        if pyTruthy app_key && pyTruthy app_secret then
          cacheRead (dropboxCacheKey hash (app_key.getD "") (app_secret.getD ""))
        else none
      let useCache : Bool :=
        !pyTruthy refresh0 &&
          (match cached with
           | some entry => entry.refresh_token ≠ ""
           | none => false)
      let refresh1 := if useCache then (cached.map (·.refresh_token)) else refresh0
      let access1 :=
        if useCache && !pyTruthy access0 then (cached.bind (·.access_token)) else access0
      if pyTruthy refresh1 && pyTruthy app_key && pyTruthy app_secret then
        (.ok ⟨refresh1, app_key, app_secret, access1, none⟩, ⟨[], []⟩)
      else if pyTruthy auth_code && pyTruthy app_key && pyTruthy app_secret then
        let ex := TokenPayload.authCode (auth_code.getD "")
        match endpoint ex with
        | .error e => (.error e, ⟨[ex], []⟩)
        | .ok td =>
          if pyTruthy td.refresh_token then
            let r := td.refresh_token.getD ""
            let ck := dropboxCacheKey hash (app_key.getD "") (app_secret.getD "")
            (.ok ⟨some r, app_key, app_secret, td.access_token, some r⟩,
             ⟨[ex], [(ck, ⟨app_key.getD "", r, td.access_token⟩)]⟩)
          else
            (.error "[SaveFileExtended:dropbox_client] Dropbox did not return a refresh_token.", ⟨[ex], []⟩)
      else if pyTruthy access1 then
        (.ok ⟨none, none, none, access1, none⟩, ⟨[], []⟩)
      else
        (.error "[SaveFileExtended:dropbox_client:_parse_credentials] When providing JSON, include either authorization_code + app_key + app_secret, refresh_token + app_key + app_secret, or an access_token.", ⟨[], []⟩)
  else
    (.ok ⟨none, none, none, some key, none⟩, ⟨[], []⟩)

/-- The client handle `_get_dbx` builds: `dropbox.Dropbox(...)` with either
the full OAuth refresh configuration or a bare access token. -/
inductive DbxClient where
  | oauth (access_token refresh_token app_key app_secret : String)
  | plain (access_token : String)
  deriving Repr, DecidableEq

/-- `Uploader._get_dbx` (`dropbox_client.py` lines 203–261): resolve
credentials; with a refresh token but no access token, perform one
refresh-token exchange and cache the result; return the client handle. -/
def dropboxGetDbx
    (hash : String → String)
    (cacheRead : String → Option CacheEntry)
    (endpoint : TokenPayload → Except String TokenResp)
    (loads : String → Option (List (String × String)))
    (api_key : String) : Except String DbxClient × DbxTrace :=
  match dropboxParseCredentials hash cacheRead endpoint loads api_key with
  | (.error e, tr) => (.error e, tr)
  | (.ok creds, tr) =>
    match creds.refresh_token with
    | some rt =>
      if ¬ pyTruthy creds.access_token then
        let ex := TokenPayload.refreshTok rt
        match endpoint ex with
        | .error _ =>
          (.error "[SaveFileExtended:dropbox_client] Unable to exchange Dropbox refresh token for a new access token.",
           ⟨tr.exchanges ++ [ex], tr.cacheWrites⟩)
        | .ok td =>
          let access := td.access_token
          let ck := dropboxCacheKey hash (creds.app_key.getD "") (creds.app_secret.getD "")
          let tr2 : DbxTrace :=
            ⟨tr.exchanges ++ [ex], tr.cacheWrites ++ [(ck, ⟨creds.app_key.getD "", rt, access⟩)]⟩
          if ¬ pyTruthy access then
            (.error "[SaveFileExtended:dropbox_client] Dropbox access token is missing after refresh.", tr2)
          else
            (.ok (.oauth (access.getD "") rt (creds.app_key.getD "") (creds.app_secret.getD "")), tr2)
      else
        (.ok (.oauth (creds.access_token.getD "") rt (creds.app_key.getD "") (creds.app_secret.getD "")), tr)
    | none =>
      if ¬ pyTruthy creds.access_token then
        (.error "[SaveFileExtended:dropbox_client:_get_dbx] Dropbox access token is required", tr)
      else
        (.ok (.plain (pyStripWs (creds.access_token.getD ""))), tr)

/-! ## UploadThing — `cloud/upload_thing.py` (C9) -/

/-- Python truthiness of an optional list/dict (`None` and empty are falsy). -/
def pyTruthyList {α : Type} : Option (List α) → Bool
  | none => false
  | some [] => false
  | some (_ :: _) => true

/-- One entry of the presign response (the fields this code reads with
`.get`). -/
structure UTPresignItem where
  key : Option String
  fileKey : Option String
  uploadUrl : Option String
  url : Option String
  fileUrl : Option String
  fields : Option (List (String × String))
  headers : Option (List (String × String))
  deriving Repr, DecidableEq

/-- `presigned[idx] if ... isinstance(presigned[idx], dict) else ` an empty
dict. -/
def UTPresignItem.empty : UTPresignItem := ⟨none, none, none, none, none, none, none⟩

/-- A result dict of UploadThing `upload_many` (no bucket field). -/
structure UTResult where
  provider : String
  path : String
  url : Option String
  deriving Repr, DecidableEq

/-- `_name_with_prefix` (`upload_thing.py` lines 51–54). -/
def utNameWithPfx (filename cloud_folder_path : String) : String :=
  let pfx := pyStripChar '/' (pyStripWs cloud_folder_path)
  if pfx ≠ "" then pfx ++ "/" ++ filename else filename

/-- The headers passed to `_ut_put` (`upload_thing.py` lines 253–256):
`item.get("headers") or ` an empty dict, with `Content-Type` added when the
key is absent. -/
def utPutHeaders (item : UTPresignItem) (content_type : String) :
    List (String × String) :=
  let hs := item.headers.getD []
  if hs.lookup "Content-Type" = none then hs ++ [("Content-Type", content_type)] else hs

/-- Loop body of `Uploader.upload_many` (`upload_thing.py` lines 244–284),
after the presign call: HTTP transfers are the `put` (PUT to `uploadUrl`) and
`post` (multipart POST) oracles, whose errors propagate and abort the batch;
callbacks are invoked best-effort. -/
def utUploadManyGo {E CE : Type}
    (put : String → Bytes → List (String × String) → Except E Unit)
    (post : String → List (String × String) → String × Bytes × String → Except E Unit)
    (guess : String → Option String)
    (cloud_folder_path : String)
    (progress_cb : Option (ItemEvent → Except CE Unit))
    (byte_cb : Option (ByteEvent → Except CE Unit))
    (pres : List (Option UTPresignItem)) (idx : Nat) :
    List UpItem → Except E (List UTResult)
  | [] => .ok []
  | it :: rest =>
    let name := utNameWithPfx it.filename cloud_folder_path
    let content_type := mimeOrOctet guess name
    let body := it.content
    let item := ((pres.get? idx).join).getD UTPresignItem.empty
    let key := pyOr item.key item.fileKey
    let url0 := pyOr item.fileUrl item.url
    let transfer : Except E Unit :=
      if pyTruthy item.uploadUrl then
        put (item.uploadUrl.getD "") body (utPutHeaders item content_type)
      else if pyTruthy item.url && pyTruthyList item.fields then
        post (item.url.getD "") (item.fields.getD []) (name, body, content_type)
      else .ok ()
    match transfer with
    | .error e => .error e
    | .ok _ =>
      let url1 :=
        if ¬ pyTruthy url0 && pyTruthy key then
          some ("https://utfs.io/f/" ++ key.getD "")
        else url0
      let path := (pyOr key (some it.filename)).getD ""
      let _ := invokeIgnoring progress_cb ⟨idx, it.filename, path⟩
      let _ := invokeIgnoring byte_cb
        ⟨body.length, body.length, some body.length, idx, it.filename, path⟩
      match utUploadManyGo put post guess cloud_folder_path progress_cb byte_cb
          pres (idx + 1) rest with
      | .error e => .error e
      | .ok rs => .ok (⟨"UploadThing", path, url1⟩ :: rs)

/-- `Uploader.upload_many` (`upload_thing.py` lines 229–286): build the
presign metadata, request presigned targets in one call (`presign` oracle;
its error — a non-2xx or a malformed response — propagates), then run the
per-item loop. -/
def utUploadMany {E CE : Type}
    (presign : List (String × Nat × String) → Except E (List (Option UTPresignItem)))
    (put : String → Bytes → List (String × String) → Except E Unit)
    (post : String → List (String × String) → String × Bytes × String → Except E Unit)
    (guess : String → Option String)
    (items : List UpItem) (cloud_folder_path : String)
    (progress_cb : Option (ItemEvent → Except CE Unit))
    (byte_cb : Option (ByteEvent → Except CE Unit)) :
    Except E (List UTResult) :=
  let meta := items.map (fun it =>
    let name := utNameWithPfx it.filename cloud_folder_path
    (name, it.content.length, mimeOrOctet guess name))
  match presign meta with
  | .error e => .error e
  | .ok pres =>
    utUploadManyGo put post guess cloud_folder_path progress_cb byte_cb pres 0 items

/-- One HTTP PUT to a presigned `uploadUrl` (`_ut_put`). -/
structure UTPutCall where
  url : String
  body : Bytes
  headers : List (String × String)
  deriving Repr, DecidableEq

/-- One multipart POST to a presigned target (`_ut_post_multipart`): the
`fields` form data and the `(name, bytes, content_type)` file tuple. -/
structure UTPostCall where
  url : String
  fields : List (String × String)
  fileField : String × Bytes × String
  deriving Repr, DecidableEq

/-- The backend calls one UploadThing single-object upload issues: the
file metadata sent to the presign endpoint (name, size, content type) and
the PUT / multipart-POST transfers that followed. -/
structure UTTrace where
  presigned : List (String × Nat × String)
  puts : List UTPutCall
  posts : List UTPostCall
  deriving Repr, DecidableEq

/-- Processing of the presign response in `Uploader.upload`
(`upload_thing.py` lines 210–227): read the first entry (an empty dict when
the list is empty or the entry is not a dict), PUT to `uploadUrl` or
multipart-POST per the response shape, fall back to the `utfs.io` URL, and
build the result dict with `key or name` as the path. -/
def utUploadCore {E : Type}
    (put : String → Bytes → List (String × String) → Except E Unit)
    (post : String → List (String × String) → String × Bytes × String → Except E Unit)
    (name content_type : String) (image_bytes : Bytes)
    (presRes : Except E (List (Option UTPresignItem))) :
    Except E UTResult × List UTPutCall × List UTPostCall :=
  match presRes with
  | .error e => (.error e, [], [])
  | .ok pres =>
    let item := ((pres.get? 0).join).getD UTPresignItem.empty
    let key := pyOr item.key item.fileKey
    let url0 := pyOr item.fileUrl item.url
    let transfer : Except E Unit × List UTPutCall × List UTPostCall :=
      if pyTruthy item.uploadUrl then
        (put (item.uploadUrl.getD "") image_bytes (utPutHeaders item content_type),
         [⟨item.uploadUrl.getD "", image_bytes, utPutHeaders item content_type⟩], [])
      else if pyTruthy item.url && pyTruthyList item.fields then
        (post (item.url.getD "") (item.fields.getD []) (name, image_bytes, content_type),
         [], [⟨item.url.getD "", item.fields.getD [], (name, image_bytes, content_type)⟩])
      else (.ok (), [], [])
    match transfer.1 with
    | .error e => (.error e, transfer.2)
    | .ok _ =>
      let url1 :=
        if ¬ pyTruthy url0 && pyTruthy key then
          some ("https://utfs.io/f/" ++ key.getD "")
        else url0
      (.ok ⟨"UploadThing", (pyOr key (some name)).getD "", url1⟩, transfer.2)

/-- `Uploader.upload` (`upload_thing.py` lines 204–227): prefix the filename
with the folder path, infer the content type from that name
(`mimetypes.guess_type(name)[0] or "application/octet-stream"`, the `guess`
oracle), presign that single file, then transfer per the response shape.
Every backend call is recorded in the returned trace. -/
def utUpload {E : Type}
    (presign : List (String × Nat × String) → Except E (List (Option UTPresignItem)))
    (put : String → Bytes → List (String × String) → Except E Unit)
    (post : String → List (String × String) → String × Bytes × String → Except E Unit)
    (guess : String → Option String)
    (image_bytes : Bytes) (filename cloud_folder_path : String) :
    Except E UTResult × UTTrace :=
  let name := utNameWithPfx filename cloud_folder_path
  let content_type := mimeOrOctet guess name
  let meta := [(name, image_bytes.length, content_type)]
  let core := utUploadCore put post name content_type image_bytes (presign meta)
  (core.1, ⟨meta, core.2.1, core.2.2⟩)

/-! ## FTP download fallbacks — `cloud/ftp_client.py` (C10) -/

/-- The candidate remote paths `_retr_with_fallbacks` tries, in order
(`ftp_client.py` lines 66–77): current-directory name, prefix-relative,
absolute name, absolute prefix-relative. -/
def ftpCandidates (filename p : String) : List String :=
  let name := pyLStripChar '/' (pyStripWs filename)
  let pfx := pyStripChar '/' p
  [name]
    ++ (if pfx ≠ "" then [pfx ++ "/" ++ name] else [])
    ++ ["/" ++ name]
    ++ (if pfx ≠ "" then ["/" ++ pfx ++ "/" ++ name] else [])

/-- The retry loop of `_retr_with_fallbacks` (lines 79–88): try each candidate
with `RETR` (the `retr` oracle returns the bytes the data callback collected),
return on the first success, remember the last error, raise it after the loop
(`.ok none` is the no-candidate, no-error fall-through). -/
def retrLoop {E B : Type} (retr : String → Except E B) :
    List String → Option E → Except E (Option B)
  | [], none => .ok none
  | [], some e => .error e
  | c :: cs, _ =>
    match retr c with
    | .ok b => .ok (some b)
    | .error e => retrLoop retr cs (some e)

/-- `_retr_with_fallbacks` (`ftp_client.py` lines 64–88). -/
def retrWithFallbacks {E B : Type} (retr : String → Except E B)
    (filename p : String) : Except E (Option B) :=
  retrLoop retr (ftpCandidates filename p) none

/-! ## Derived per-item descriptions used to state batch properties -/

/-- The `put_object` call the S3 adapter issues for one item of
`upload_many`. -/
def s3CallOf (bucket_link cloud_folder_path : String) (it : UpItem) : S3PutCall :=
  let bk := s3ParseBucketAndKey bucket_link cloud_folder_path it.filename
  ⟨bk.1, bk.2, it.content, "image/png"⟩

/-- The resolved S3 object key for a filename. -/
def s3KeyOf (bucket_link cloud_folder_path fn : String) : String :=
  (s3ParseBucketAndKey bucket_link cloud_folder_path fn).2

/-- The result dict the S3 adapter appends for one item of `upload_many`. -/
def s3ResultOf (bucket_link cloud_folder_path : String) (it : UpItem) : CloudResult :=
  let bk := s3ParseBucketAndKey bucket_link cloud_folder_path it.filename
  ⟨"AWS S3", bk.1, bk.2, some ("https://" ++ bk.1 ++ ".s3.amazonaws.com/" ++ bk.2)⟩

/-- The bucket the Supabase adapter resolves once per batch. -/
def supaBucketOf (bucket_link cloud_folder_path : String) : String :=
  (supabaseParseBucketAndPath bucket_link cloud_folder_path "dummy").1

/-- The resolved Supabase object path for a filename. -/
def supaPathOf (bucket_link cloud_folder_path fn : String) : String :=
  (supabaseParseBucketAndPath bucket_link cloud_folder_path fn).2

/-- The result dict the Supabase adapter appends for one item of
`upload_many`. -/
def supaResultOf (pubUrl : String → String) (bucket_link cloud_folder_path : String)
    (it : UpItem) : CloudResult :=
  let bucket := supaBucketOf bucket_link cloud_folder_path
  let path := supaPathOf bucket_link cloud_folder_path it.filename
  ⟨"Supabase Storage", bucket, path, some (pubUrl path)⟩

/-- The `upload` call the Supabase adapter issues for one item of
`upload_many`: bucket, path, body and content type. -/
def supaCallOf (guess : String → Option String) (bucket_link cloud_folder_path : String)
    (it : UpItem) : String × String × Bytes × String :=
  (supaBucketOf bucket_link cloud_folder_path,
   supaPathOf bucket_link cloud_folder_path it.filename,
   it.content,
   supabaseUploadContentType guess it.filename)

/-- The credential JSON of the C8 scenario:
`{"app_key":"k","app_secret":"s","authorization_code":"code123"}`. -/
def dropboxScenarioJson : String :=
  "\x7b\"app_key\":\"k\",\"app_secret\":\"s\",\"authorization_code\":\"code123\"\x7d"

/-! # Helper lemmas -/

theorem chunkStep_sum (cm r : Nat) : (chunkStep cm r).sum = r := by
  induction r using Nat.strong_induction_on with
  | _ r ih =>
    cases r with
    | zero => simp [chunkStep]
    | succ n =>
      rw [chunkStep]
      by_cases h : n + 1 ≤ cm + 1
      · simp [h]
      · simp only [if_neg h, List.sum_cons, ih (n + 1 - (cm + 1)) (by omega)]
        omega

theorem s3UploadMany_cons {E : Type} (put : S3PutCall → Except E Unit)
    (it : UpItem) (rest : List UpItem) (link folder : String) :
    s3UploadMany put (it :: rest) link folder =
      match put (s3CallOf link folder it) with
      | .error e => .error e
      | .ok _ =>
        match s3UploadMany put rest link folder with
        | .error e => .error e
        | .ok rs => .ok (s3ResultOf link folder it :: rs) := rfl

theorem s3UploadMany_ok_spec {E : Type} (put : S3PutCall → Except E Unit)
    (link folder : String) :
    ∀ items : List UpItem, ∀ rs,
      s3UploadMany put items link folder = .ok rs →
      rs = items.map (s3ResultOf link folder) ∧
      ∀ it ∈ items, put (s3CallOf link folder it) = .ok () := by
  intro items
  induction items with
  | nil =>
    intro rs h
    simp only [s3UploadMany] at h
    cases h
    exact ⟨rfl, by simp⟩
  | cons it rest ih =>
    intro rs h
    rw [s3UploadMany_cons] at h
    cases hp : put (s3CallOf link folder it) with
    | error e => rw [hp] at h; cases h
    | ok u =>
      rw [hp] at h
      cases hr : s3UploadMany put rest link folder with
      | error e => rw [hr] at h; cases h
      | ok rs0 =>
        rw [hr] at h
        cases h
        obtain ⟨h1, h2⟩ := ih rs0 hr
        refine ⟨by simp [h1], ?_⟩
        intro x hx
        rcases List.mem_cons.mp hx with rfl | hx
        · cases u; exact hp
        · exact h2 x hx

theorem s3UploadMany_error_spec {E : Type} (put : S3PutCall → Except E Unit)
    (link folder : String) :
    ∀ items : List UpItem, ∀ e,
      s3UploadMany put items link folder = .error e →
      ∃ k, ∃ hk : k < items.length,
        put (s3CallOf link folder (items.get ⟨k, hk⟩)) = .error e ∧
        ∀ it ∈ items.take k, put (s3CallOf link folder it) = .ok () := by
  intro items
  induction items with
  | nil => intro e h; simp only [s3UploadMany] at h; cases h
  | cons it rest ih =>
    intro e h
    rw [s3UploadMany_cons] at h
    cases hp : put (s3CallOf link folder it) with
    | error e0 =>
      rw [hp] at h
      cases h
      exact ⟨0, by simp, hp, by simp⟩
    | ok u =>
      rw [hp] at h
      cases hr : s3UploadMany put rest link folder with
      | error e0 =>
        rw [hr] at h
        cases h
        obtain ⟨k, hk, hfail, hpre⟩ := ih e hr
        refine ⟨k + 1, by simpa using Nat.succ_lt_succ hk, hfail, ?_⟩
        intro x hx
        rcases List.mem_cons.mp hx with rfl | hx
        · cases u; exact hp
        · exact hpre x hx
      | ok rs0 => rw [hr] at h; cases h

theorem supabaseUploadMany_cons {CE : Type}
    (put : String → String → Bytes → String → Except SupaErr Unit)
    (pubUrl : String → String) (guess : String → Option String) (role : Option String)
    (it : UpItem) (rest : List UpItem) (link folder : String)
    (pcb : Option (ItemEvent → Except CE Unit)) (bcb : Option (ByteEvent → Except CE Unit))
    (idx : Nat) :
    supabaseUploadMany put pubUrl guess role (it :: rest) link folder pcb bcb idx =
      match put (supaBucketOf link folder) (supaPathOf link folder it.filename)
          it.content (supabaseUploadContentType guess it.filename) with
      | .error e => .error (supaMapUploadErr role (supaBucketOf link folder) e)
      | .ok _ =>
        match supabaseUploadMany put pubUrl guess role rest link folder pcb bcb (idx + 1) with
        | .error e => .error e
        | .ok rs => .ok (supaResultOf pubUrl link folder it :: rs) := rfl

theorem supabaseUploadMany_ok_spec {CE : Type}
    (put : String → String → Bytes → String → Except SupaErr Unit)
    (pubUrl : String → String) (guess : String → Option String) (role : Option String)
    (link folder : String)
    (pcb : Option (ItemEvent → Except CE Unit)) (bcb : Option (ByteEvent → Except CE Unit)) :
    ∀ items : List UpItem, ∀ idx rs,
      supabaseUploadMany put pubUrl guess role items link folder pcb bcb idx = .ok rs →
      rs = items.map (supaResultOf pubUrl link folder) ∧
      ∀ it ∈ items,
        (fun c => put c.1 c.2.1 c.2.2.1 c.2.2.2) (supaCallOf guess link folder it) = .ok () := by
  intro items
  induction items with
  | nil =>
    intro idx rs h
    simp only [supabaseUploadMany] at h
    cases h
    exact ⟨rfl, by simp⟩
  | cons it rest ih =>
    intro idx rs h
    rw [supabaseUploadMany_cons] at h
    cases hp : put (supaBucketOf link folder) (supaPathOf link folder it.filename)
        it.content (supabaseUploadContentType guess it.filename) with
    | error e => rw [hp] at h; cases h
    | ok u =>
      rw [hp] at h
      cases hr : supabaseUploadMany put pubUrl guess role rest link folder pcb bcb (idx + 1) with
      | error e => rw [hr] at h; cases h
      | ok rs0 =>
        rw [hr] at h
        cases h
        obtain ⟨h1, h2⟩ := ih (idx + 1) rs0 hr
        refine ⟨by simp [h1], ?_⟩
        intro x hx
        rcases List.mem_cons.mp hx with rfl | hx
        · cases u; exact hp
        · exact h2 x hx

theorem supabaseUploadMany_error_spec {CE : Type}
    (put : String → String → Bytes → String → Except SupaErr Unit)
    (pubUrl : String → String) (guess : String → Option String) (role : Option String)
    (link folder : String)
    (pcb : Option (ItemEvent → Except CE Unit)) (bcb : Option (ByteEvent → Except CE Unit)) :
    ∀ items : List UpItem, ∀ idx e,
      supabaseUploadMany put pubUrl guess role items link folder pcb bcb idx = .error e →
      ∃ k, ∃ hk : k < items.length, ∃ e0,
        (fun c => put c.1 c.2.1 c.2.2.1 c.2.2.2) (supaCallOf guess link folder (items.get ⟨k, hk⟩)) = .error e0 ∧
        e = supaMapUploadErr role (supaBucketOf link folder) e0 ∧
        ∀ it ∈ items.take k,
          (fun c => put c.1 c.2.1 c.2.2.1 c.2.2.2) (supaCallOf guess link folder it) = .ok () := by
  intro items
  induction items with
  | nil => intro idx e h; simp only [supabaseUploadMany] at h; cases h
  | cons it rest ih =>
    intro idx e h
    rw [supabaseUploadMany_cons] at h
    cases hp : put (supaBucketOf link folder) (supaPathOf link folder it.filename)
        it.content (supabaseUploadContentType guess it.filename) with
    | error e0 =>
      rw [hp] at h
      cases h
      exact ⟨0, by simp, e0, hp, rfl, by simp⟩
    | ok u =>
      rw [hp] at h
      cases hr : supabaseUploadMany put pubUrl guess role rest link folder pcb bcb (idx + 1) with
      | error e0 =>
        rw [hr] at h
        cases h
        obtain ⟨k, hk, e1, hfail, hmap, hpre⟩ := ih (idx + 1) e hr
        refine ⟨k + 1, by simpa using Nat.succ_lt_succ hk, e1, hfail, hmap, ?_⟩
        intro x hx
        rcases List.mem_cons.mp hx with rfl | hx
        · cases u; exact hp
        · exact hpre x hx
      | ok rs0 => rw [hr] at h; cases h

theorem supabaseUploadMany_cb_irrelevant {CE1 CE2 : Type}
    (put : String → String → Bytes → String → Except SupaErr Unit)
    (pubUrl : String → String) (guess : String → Option String) (role : Option String)
    (link folder : String)
    (pcb1 : Option (ItemEvent → Except CE1 Unit)) (bcb1 : Option (ByteEvent → Except CE1 Unit))
    (pcb2 : Option (ItemEvent → Except CE2 Unit)) (bcb2 : Option (ByteEvent → Except CE2 Unit)) :
    ∀ items : List UpItem, ∀ idx,
      supabaseUploadMany put pubUrl guess role items link folder pcb1 bcb1 idx =
      supabaseUploadMany put pubUrl guess role items link folder pcb2 bcb2 idx := by
  intro items
  induction items with
  | nil => intro idx; rfl
  | cons it rest ih =>
    intro idx
    rw [supabaseUploadMany_cons, supabaseUploadMany_cons, ih (idx + 1)]

theorem utUploadManyGo_cb_irrelevant {E CE1 CE2 : Type}
    (put : String → Bytes → List (String × String) → Except E Unit)
    (post : String → List (String × String) → String × Bytes × String → Except E Unit)
    (guess : String → Option String) (folder : String)
    (pcb1 : Option (ItemEvent → Except CE1 Unit)) (bcb1 : Option (ByteEvent → Except CE1 Unit))
    (pcb2 : Option (ItemEvent → Except CE2 Unit)) (bcb2 : Option (ByteEvent → Except CE2 Unit)) :
    ∀ items : List UpItem, ∀ pres idx,
      utUploadManyGo put post guess folder pcb1 bcb1 pres idx items =
      utUploadManyGo put post guess folder pcb2 bcb2 pres idx items := by
  intro items
  induction items with
  | nil => intro pres idx; rfl
  | cons it rest ih =>
    intro pres idx
    simp only [utUploadManyGo]
    rw [ih pres (idx + 1)]

theorem utUploadMany_cb_irrelevant {E CE1 CE2 : Type}
    (presign : List (String × Nat × String) → Except E (List (Option UTPresignItem)))
    (put : String → Bytes → List (String × String) → Except E Unit)
    (post : String → List (String × String) → String × Bytes × String → Except E Unit)
    (guess : String → Option String) (folder : String)
    (pcb1 : Option (ItemEvent → Except CE1 Unit)) (bcb1 : Option (ByteEvent → Except CE1 Unit))
    (pcb2 : Option (ItemEvent → Except CE2 Unit)) (bcb2 : Option (ByteEvent → Except CE2 Unit))
    (items : List UpItem) :
    utUploadMany presign put post guess items folder pcb1 bcb1 =
    utUploadMany presign put post guess items folder pcb2 bcb2 := by
  simp only [utUploadMany]
  cases presign (items.map (fun it =>
    let name := utNameWithPfx it.filename folder
    (name, it.content.length, mimeOrOctet guess name))) with
  | error e => rfl
  | ok pres => exact utUploadManyGo_cb_irrelevant put post guess folder pcb1 bcb1 pcb2 bcb2 items pres 0

theorem retrLoop_ok_of_first {E B : Type} (retr : String → Except E B) :
    ∀ cs : List String, ∀ acc : Option E, ∀ i, ∀ hi : i < cs.length, ∀ b,
      (∀ j, ∀ hj : j < i, ∃ e, retr (cs.get ⟨j, Nat.lt_trans hj hi⟩) = .error e) →
      retr (cs.get ⟨i, hi⟩) = .ok b →
      retrLoop retr cs acc = .ok (some b) := by
  intro cs
  induction cs with
  | nil => intro acc i hi; cases hi
  | cons c cs ih =>
    intro acc i hi b hprev hok
    cases i with
    | zero =>
      simp only [retrLoop]
      rw [show retr c = .ok b from hok]
    | succ n =>
      obtain ⟨e, he⟩ := hprev 0 (Nat.succ_pos n)
      simp only [retrLoop]
      rw [show retr c = .error e from he]
      exact ih (some e) n (Nat.lt_of_succ_lt_succ hi) b
        (fun j hj => hprev (j + 1) (Nat.succ_lt_succ hj)) hok

theorem retrLoop_error_of_all {E B : Type} (retr : String → Except E B) :
    ∀ cs : List String, ∀ acc : Option E, ∀ clast e,
      (∀ c ∈ cs, ∃ e0, retr c = .error e0) →
      cs.getLast? = some clast → retr clast = .error e →
      retrLoop retr cs acc = .error e := by
  intro cs
  induction cs with
  | nil => intro acc clast e _ hlast; cases hlast
  | cons c cs ih =>
    intro acc clast e hall hlast hle
    obtain ⟨e0, he0⟩ := hall c (List.mem_cons_self c cs)
    cases cs with
    | nil =>
      have hc : clast = c := by
        simp only [List.getLast?, List.getLast] at hlast
        exact (Option.some.inj hlast).symm
      subst hc
      simp only [retrLoop]
      rw [show retr clast = .error e from hle]
    | cons d ds =>
      simp only [retrLoop]
      rw [show retr c = .error e0 from he0]
      refine ih (some e0) clast e (fun x hx => hall x (List.mem_cons_of_mem c hx)) ?_ hle
      simpa using hlast

/-! # Claims -/

/-- C1: of the eleven provider names, `get_uploader` resolves only ten —
`"UploadThing"` is absent from the registry dictionary and raises
`Unsupported cloud provider`, although `upload_thing.py` implements the
adapter and the save/load nodes offer `"UploadThing"` as a choice. -/
theorem c1_registry_resolves_ten_not_eleven :
    (elevenProviderNames.take 10).all (fun p => (get_uploader p).toBool) = true ∧
    get_uploader "UploadThing" =
      .error "[SaveFileExtended:get_uploader] Unsupported cloud provider: UploadThing" ∧
    elevenProviderNames.all (fun p => (get_uploader p).toBool) = false ∧
    providers.length = 10 := by
  exact ⟨by decide, rfl, by decide, rfl⟩

/-- C6: resolving locator `s3://my-bucket/outputs`, folder path `2024`,
filename `img.png` yields bucket `my-bucket` and key `outputs/2024/img.png`;
redundant slashes in either contribution are stripped and the order is
locator prefix, then folder path, then filename. -/
theorem c6_s3_concrete_address :
    s3ParseBucketAndKey "s3://my-bucket/outputs" "2024" "img.png" =
      ("my-bucket", "outputs/2024/img.png") ∧
    s3ParseBucketAndKey "s3://my-bucket/outputs/" "/2024/" "img.png" =
      ("my-bucket", "outputs/2024/img.png") := by
  exact ⟨by decide, by decide⟩

/-- C2: for the S3 and Supabase adapters, `upload_many` on `N` items either
returns exactly `N` results — the `i`-th fully determined by the `i`-th input
item — with every backend put having succeeded, or raises: on success the
result list is the map of the per-item result over the inputs, and on error
some item `k` failed after all items before `k` succeeded (for Supabase the
raised error is the adapter's RLS-mapping of the backend error). -/
theorem c2_upload_many_exactness {E CE : Type} (put : S3PutCall → Except E Unit)
    (sput : String → String → Bytes → String → Except SupaErr Unit)
    (pubUrl : String → String) (guess : String → Option String) (role : Option String)
    (pcb : Option (ItemEvent → Except CE Unit)) (bcb : Option (ByteEvent → Except CE Unit))
    (items : List UpItem) (link folder : String) :
    (∀ rs, s3UploadMany put items link folder = .ok rs →
      rs.length = items.length ∧
      (∀ i, ∀ hi : i < items.length, ∀ hr : i < rs.length,
        rs.get ⟨i, hr⟩ = s3ResultOf link folder (items.get ⟨i, hi⟩)) ∧
      ∀ it ∈ items, put (s3CallOf link folder it) = .ok ()) ∧
    (∀ e, s3UploadMany put items link folder = .error e →
      ∃ k, ∃ hk : k < items.length,
        put (s3CallOf link folder (items.get ⟨k, hk⟩)) = .error e ∧
        ∀ it ∈ items.take k, put (s3CallOf link folder it) = .ok ()) ∧
    (∀ rs, supabaseUploadMany sput pubUrl guess role items link folder pcb bcb 0 = .ok rs →
      rs.length = items.length ∧
      (∀ i, ∀ hi : i < items.length, ∀ hr : i < rs.length,
        rs.get ⟨i, hr⟩ = supaResultOf pubUrl link folder (items.get ⟨i, hi⟩)) ∧
      ∀ it ∈ items,
        (fun c => sput c.1 c.2.1 c.2.2.1 c.2.2.2) (supaCallOf guess link folder it) = .ok ()) ∧
    (∀ e, supabaseUploadMany sput pubUrl guess role items link folder pcb bcb 0 = .error e →
      ∃ k, ∃ hk : k < items.length, ∃ e0,
        (fun c => sput c.1 c.2.1 c.2.2.1 c.2.2.2) (supaCallOf guess link folder (items.get ⟨k, hk⟩)) = .error e0 ∧
        e = supaMapUploadErr role (supaBucketOf link folder) e0 ∧
        ∀ it ∈ items.take k,
          (fun c => sput c.1 c.2.1 c.2.2.1 c.2.2.2) (supaCallOf guess link folder it) = .ok ()) := by
  refine ⟨?_, s3UploadMany_error_spec put link folder items, ?_,
    fun e h => supabaseUploadMany_error_spec sput pubUrl guess role link folder pcb bcb items 0 e h⟩
  · intro rs h
    obtain ⟨h1, h2⟩ := s3UploadMany_ok_spec put link folder items rs h
    subst h1
    refine ⟨by simp, ?_, h2⟩
    intro i hi hr
    simp [List.getElem_map]
  · intro rs h
    obtain ⟨h1, h2⟩ := supabaseUploadMany_ok_spec sput pubUrl guess role link folder pcb bcb items 0 rs h
    subst h1
    refine ⟨by simp, ?_, h2⟩
    intro i hi hr
    simp [List.getElem_map]

/-- C2 witness: with a backend that accepts every put, a two-item batch on
both adapters returns exactly two results. -/
theorem c2_upload_many_exactness_witness :
    ∃ rs, s3UploadMany (fun _ => (.ok () : Except Unit Unit))
        [⟨"a.png", [0]⟩, ⟨"b.png", [1]⟩] "s3://b/base" "d" = .ok rs ∧ rs.length = 2 := by
  refine ⟨_, rfl, ?_⟩
  have h := (c2_upload_many_exactness (fun _ => (.ok () : Except Unit Unit))
    (fun _ _ _ _ => .ok ()) (fun p => p) (fun _ => none) none
    (none : Option (ItemEvent → Except Unit Unit))
    (none : Option (ByteEvent → Except Unit Unit))
    [⟨"a.png", [0]⟩, ⟨"b.png", [1]⟩] "s3://b/base" "d").1 _ rfl
  exact h.1

/-- C3 counterexample: a payload of exactly the chunk constant (4 MiB for
Dropbox, 8 MiB for Azure) takes the simple path even with a byte callback
(the code tests `len(body) > threshold`, strictly), and without a byte
callback even an above-threshold payload takes the simple path — refuting
"at or above the threshold uses the chunked/resumable path". -/
theorem c3_at_threshold_uses_simple_path :
    dropboxUsesChunked true (4 * 1024 * 1024) = false ∧
    azureUsesChunked true (8 * 1024 * 1024) = false ∧
    dropboxUsesChunked false (4 * 1024 * 1024 + 1) = false ∧
    azureUsesChunked false (8 * 1024 * 1024 + 1) = false := by
  exact ⟨by decide, by decide, by decide, by decide⟩

/-- C3 (amended): when a byte callback is supplied, payloads at or below the
chunk constant (4 MiB Dropbox, 8 MiB Azure) — in particular one byte below it
— take the simple single-request path and strictly larger payloads take the
chunked path; without a byte callback every payload takes the simple path;
and the byte-progress deltas reported during a chunked transfer always sum to
the payload's total size. -/
theorem c3_chunk_threshold_and_delta_sums :
    (∀ cb : Bool, dropboxUsesChunked cb (dropboxChunkSize - 1) = false) ∧
    dropboxUsesChunked true dropboxChunkSize = false ∧
    (∀ k : Nat, dropboxUsesChunked true (dropboxChunkSize + k + 1) = true) ∧
    (∀ size : Nat, dropboxUsesChunked false size = false) ∧
    (∀ k : Nat, (dropboxSessionDeltas (dropboxChunkSize + k + 1)).sum =
      dropboxChunkSize + k + 1) ∧
    (∀ cb : Bool, azureUsesChunked cb (azureChunkSize - 1) = false) ∧
    azureUsesChunked true azureChunkSize = false ∧
    (∀ k : Nat, azureUsesChunked true (azureChunkSize + k + 1) = true) ∧
    (∀ size : Nat, azureUsesChunked false size = false) ∧
    (∀ k : Nat, (azureStagedDeltas (k + 1)).sum = k + 1) := by
  refine ⟨fun cb => ?_, by decide, fun k => ?_, fun size => rfl, fun k => ?_,
    fun cb => ?_, by decide, fun k => ?_, fun size => rfl, fun k => ?_⟩
  · cases cb <;> decide
  · simp only [dropboxUsesChunked, Bool.true_and, decide_eq_true_eq]
    omega
  · unfold dropboxSessionDeltas
    rw [List.sum_cons, chunkStep_sum]
    omega
  · cases cb <;> decide
  · simp only [azureUsesChunked, Bool.true_and, decide_eq_true_eq]
    omega
  · unfold azureStagedDeltas
    rw [chunkStep_sum]

/-- C5 counterexample: for a filename with an unrecognized extension the S3,
Azure and B2 adapters send `image/png` — not the extension-inferred type with
`application/octet-stream` fallback that the extension-based rule (used by
GCS and friends, last conjunct) would produce. -/
theorem c5_hardcoded_png_counterexample :
    (s3Upload [0] "file.xyz" "s3://b" "").2.contentType = "image/png" ∧
    azureUploadContentType "file.xyz" = "image/png" ∧
    b2UploadContentType "file.xyz" = "image/png" ∧
    mimeOrOctet (fun _ => none) "file.xyz" = "application/octet-stream" ∧
    "image/png" ≠ "application/octet-stream" := by
  exact ⟨rfl, rfl, rfl, rfl, by decide⟩

/-- C5 (amended): the GCS, S3-Compatible, Supabase and UploadThing
single-object uploads infer the content type from the filename
(`mimetypes.guess_type`, modelled by the `guess` oracle) with
`application/octet-stream` as the unknown-extension fallback — UploadThing
guessing on the folder-prefixed name it sends to the presign endpoint —
whereas the S3, Azure and B2 single-object uploads always send the hardcoded
`image/png`, whatever the filename. -/
theorem c5_content_type_by_adapter :
    (∀ bytes : Bytes, ∀ fn link folder,
      (s3Upload bytes fn link folder).2.contentType = "image/png") ∧
    (∀ fn, azureUploadContentType fn = "image/png") ∧
    (∀ fn, b2UploadContentType fn = "image/png") ∧
    (∀ guess fn t, guess fn = some t → t ≠ "" → gcsUploadContentType guess fn = t) ∧
    (∀ guess fn, guess fn = none →
      gcsUploadContentType guess fn = "application/octet-stream") ∧
    (∀ guess fn, s3CompatibleUploadContentType guess fn = mimeOrOctet guess fn) ∧
    (∀ guess fn, supabaseUploadContentType guess fn = mimeOrOctet guess fn) ∧
    (∀ E : Type,
      ∀ presign : List (String × Nat × String) → Except E (List (Option UTPresignItem)),
      ∀ put : String → Bytes → List (String × String) → Except E Unit,
      ∀ post : String → List (String × String) → String × Bytes × String → Except E Unit,
      ∀ guess : String → Option String, ∀ bytes : Bytes, ∀ fn folder,
      (utUpload presign put post guess bytes fn folder).2.presigned =
        [(utNameWithPfx fn folder, bytes.length,
          mimeOrOctet guess (utNameWithPfx fn folder))]) := by
  refine ⟨fun bytes fn link folder => rfl, fun fn => rfl, fun fn => rfl,
    fun guess fn t h1 h2 => ?_, fun guess fn h => ?_, fun guess fn => rfl, fun guess fn => rfl,
    fun E presign put post guess bytes fn folder => rfl⟩
  · simp [gcsUploadContentType, mimeOrOctet, h1, h2]
  · simp [gcsUploadContentType, mimeOrOctet, h]

/-- C5 witness: the inferring rule at a known and at an unknown extension,
and the metadata UploadThing presigns for a concrete file. -/
theorem c5_content_type_by_adapter_witness :
    gcsUploadContentType (fun _ => some "image/jpeg") "a.jpg" = "image/jpeg" ∧
    gcsUploadContentType (fun _ => none) "a.unknownext" = "application/octet-stream" ∧
    (utUpload (fun _ => (.ok [] : Except Unit (List (Option UTPresignItem))))
        (fun _ _ _ => .ok ()) (fun _ _ _ => .ok ()) (fun _ => none)
        [0, 1] "a.unknownext" "d").2.presigned =
      [("d/a.unknownext", 2, "application/octet-stream")] :=
  ⟨c5_content_type_by_adapter.2.2.2.1 (fun _ => some "image/jpeg") "a.jpg" "image/jpeg"
      rfl (by decide),
   c5_content_type_by_adapter.2.2.2.2.1 (fun _ => none) "a.unknownext" rfl,
   c5_content_type_by_adapter.2.2.2.2.2.2.2 Unit
     (fun _ => .ok []) (fun _ _ _ => .ok ()) (fun _ _ _ => .ok ()) (fun _ => none)
     [0, 1] "a.unknownext" "d"⟩

/-- C4 counterexample: the S3 credential parser given a malformed JSON
credential (the `loads` oracle raises) returns the `(None, None, None)`
triple — its `except Exception: pass` swallows the error and no branch of
`_parse_credentials` can raise — instead of raising as the claim requires. -/
theorem c4_s3_swallows_malformed_json :
    s3ParseCredentials (fun _ => none) "\x7bgarbage" = (none, none, none) ∧
    s3ParseCredentials (fun _ => none) "plain-token-no-colon" = (none, none, none) := by
  exact ⟨by decide, by decide⟩

/-- C4 (amended): the B2 parser raises on a missing colon, and the Dropbox
parser raises on an empty credential and on a JSON credential that carries
none of the recognized field combinations; but the S3 parser never raises —
malformed JSON or an unrecognized shape yields `(None, None, None)` and the
adapter silently proceeds with ambient credentials. -/
theorem c4_credential_parse_failures :
    (∀ loads s, pyStartsWithChar '{' (pyStripWs s) = true → loads (pyStripWs s) = none →
      s ≠ "" → s3ParseCredentials loads s = (none, none, none)) ∧
    (∀ s, pyContainsChar ':' s = false →
      b2ParseCreds s = .error "Backblaze B2 api_key must be keyId:key") ∧
    (∀ hash cacheRead endpoint loads,
      (dropboxParseCredentials hash cacheRead endpoint loads "").1 =
        .error "[SaveFileExtended:dropbox_client:_parse_credentials] Dropbox cloud_api_key is required") ∧
    (∀ hash cacheRead endpoint loads s,
      pyStartsWithChar '{' (pyStripWs s) = true → pyStripWs s ≠ "" →
      loads (pyStripWs s) = some [] →
      (dropboxParseCredentials hash cacheRead endpoint loads s).1 =
        .error "[SaveFileExtended:dropbox_client:_parse_credentials] When providing JSON, include either authorization_code + app_key + app_secret, refresh_token + app_key + app_secret, or an access_token.") := by
  refine ⟨fun loads s h1 h2 h3 => ?_, fun s h => ?_, fun hash cacheRead endpoint loads => rfl,
    fun hash cacheRead endpoint loads s h1 h2 h3 => ?_⟩
  · simp only [s3ParseCredentials, if_neg h3, h1, if_pos, h2]
  · simp only [b2ParseCreds, h, Bool.false_eq_true, not_false_eq_true, if_pos]
  · simp only [dropboxParseCredentials, if_neg h2, h1, if_pos, h3]
    simp [pyOr, pyTruthy]

/-- C4 witness: the four failure modes at concrete credentials. -/
theorem c4_credential_parse_failures_witness :
    s3ParseCredentials (fun _ => none) "\x7bbad" = (none, none, none) ∧
    b2ParseCreds "nocolon" = .error "Backblaze B2 api_key must be keyId:key" ∧
    (dropboxParseCredentials (fun s => s) (fun _ => none) (fun _ => .error "e")
        (fun _ => some []) "").1 =
      .error "[SaveFileExtended:dropbox_client:_parse_credentials] Dropbox cloud_api_key is required" ∧
    (dropboxParseCredentials (fun s => s) (fun _ => none) (fun _ => .error "e")
        (fun _ => some []) "\x7b\x7d").1 =
      .error "[SaveFileExtended:dropbox_client:_parse_credentials] When providing JSON, include either authorization_code + app_key + app_secret, refresh_token + app_key + app_secret, or an access_token." :=
  ⟨c4_credential_parse_failures.1 (fun _ => none) "\x7bbad" (by decide) rfl (by decide),
   c4_credential_parse_failures.2.1 "nocolon" (by decide),
   c4_credential_parse_failures.2.2.1 (fun s => s) (fun _ => none) (fun _ => .error "e")
     (fun _ => some []),
   c4_credential_parse_failures.2.2.2 (fun s => s) (fun _ => none) (fun _ => .error "e")
     (fun _ => some []) "\x7b\x7d" (by decide) (by decide) rfl⟩

/-- C7: the reporting bridge's kwargs sanitization replaces the value of
every argument whose lowercased name is in `SENSITIVE_KEYS` with the masked
placeholder `***`: the masked entry is present in the sanitized output, and
every sanitized entry under a sensitive name carries `***` — never the raw
value. -/
theorem c7_sensitive_kwargs_masked (kwargs : List (String × PyVal)) (k : String) (v : PyVal)
    (hk : pyLower k ∈ SENSITIVE_KEYS) (hmem : (k, v) ∈ kwargs) :
    (k, PyVal.str "***") ∈ sanitizeKwargs kwargs ∧
    ∀ kv ∈ sanitizeKwargs kwargs, pyLower kv.1 ∈ SENSITIVE_KEYS → kv.2 = PyVal.str "***" := by
  constructor
  · refine List.mem_map.mpr ⟨(k, v), hmem, ?_⟩
    simp [hk]
  · intro kv hkv hsens
    obtain ⟨⟨k0, v0⟩, hmem0, heq⟩ := List.mem_map.mp hkv
    cases heq
    simp only [if_pos (by simpa using hsens)]

/-- C7 witness: an `api_key` kwarg with a secret value is masked. -/
theorem c7_sensitive_kwargs_masked_witness :
    ("api_key", PyVal.str "***") ∈
      sanitizeKwargs [("api_key", PyVal.str "supersecret123")] :=
  (c7_sensitive_kwargs_masked [("api_key", PyVal.str "supersecret123")] "api_key"
    (PyVal.str "supersecret123") (by decide) (List.mem_singleton.mpr rfl)).1

/-- C8: resolving the Dropbox credential JSON with `app_key` `k`,
`app_secret` `s` and `authorization_code` `code123` (cache empty, token
endpoint succeeding with refresh token `r1` and access token `a1`) performs
exactly one token exchange — the authorization-code exchange — returns a
client configured with those tokens, and writes exactly one cache entry,
keyed by the hash of the string `k:s` and containing the new refresh
token. -/
theorem c8_dropbox_auth_code_exchange (hash : String → String) :
    dropboxGetDbx hash (fun _ => none)
      (fun p => if p = TokenPayload.authCode "code123" then
          .ok ⟨some "r1", some "a1"⟩
        else .error "unexpected")
      (fun s => if s = dropboxScenarioJson then
          some [("app_key", "k"), ("app_secret", "s"), ("authorization_code", "code123")]
        else none)
      dropboxScenarioJson
    = (.ok (.oauth "a1" "r1" "k" "s"),
       ⟨[TokenPayload.authCode "code123"], [(hash "k:s", ⟨"k", "r1", some "a1"⟩)]⟩) := by
  rfl

/-- C9: a raising progress or byte callback never changes the outcome of a
batch upload: Supabase and UploadThing `upload_many` return exactly what they
return for any other callbacks (in particular none at all), because every
callback invocation is wrapped in `try: ... except Exception: pass`. -/
theorem c9_callbacks_never_abort {E CE1 CE2 : Type}
    (sput : String → String → Bytes → String → Except SupaErr Unit)
    (pubUrl : String → String) (guess : String → Option String) (role : Option String)
    (presign : List (String × Nat × String) → Except E (List (Option UTPresignItem)))
    (put : String → Bytes → List (String × String) → Except E Unit)
    (post : String → List (String × String) → String × Bytes × String → Except E Unit)
    (items : List UpItem) (link folder : String)
    (pcb1 : Option (ItemEvent → Except CE1 Unit)) (bcb1 : Option (ByteEvent → Except CE1 Unit))
    (pcb2 : Option (ItemEvent → Except CE2 Unit)) (bcb2 : Option (ByteEvent → Except CE2 Unit)) :
    supabaseUploadMany sput pubUrl guess role items link folder pcb1 bcb1 0 =
      supabaseUploadMany sput pubUrl guess role items link folder pcb2 bcb2 0 ∧
    utUploadMany presign put post guess items folder pcb1 bcb1 =
      utUploadMany presign put post guess items folder pcb2 bcb2 :=
  ⟨supabaseUploadMany_cb_irrelevant sput pubUrl guess role link folder pcb1 bcb1 pcb2 bcb2 items 0,
   utUploadMany_cb_irrelevant presign put post guess folder pcb1 bcb1 pcb2 bcb2 items⟩

/-- C10: the FTP download fallback tries, in order, the bare name in the
current directory and then (with a non-empty resolved prefix) the three
alternative variants `prefix/name`, `/name`, `/prefix/name`; it returns the
bytes of the first variant whose `RETR` succeeds — possibly a same-named file
from a different directory — and raises the error of the last variant only
when every variant fails. -/
theorem c10_ftp_retr_fallbacks {E B : Type} (retr : String → Except E B)
    (filename p : String) :
    (pyStripChar '/' p ≠ "" →
      ftpCandidates filename p =
        [pyLStripChar '/' (pyStripWs filename),
         pyStripChar '/' p ++ "/" ++ pyLStripChar '/' (pyStripWs filename),
         "/" ++ pyLStripChar '/' (pyStripWs filename),
         "/" ++ pyStripChar '/' p ++ "/" ++ pyLStripChar '/' (pyStripWs filename)]) ∧
    (∀ i, ∀ hi : i < (ftpCandidates filename p).length, ∀ b,
      (∀ j, ∀ hj : j < i, ∃ e,
        retr ((ftpCandidates filename p).get ⟨j, Nat.lt_trans hj hi⟩) = .error e) →
      retr ((ftpCandidates filename p).get ⟨i, hi⟩) = .ok b →
      retrWithFallbacks retr filename p = .ok (some b)) ∧
    (∀ clast e, (∀ c ∈ ftpCandidates filename p, ∃ e0, retr c = .error e0) →
      (ftpCandidates filename p).getLast? = some clast → retr clast = .error e →
      retrWithFallbacks retr filename p = .error e) := by
  refine ⟨fun h => ?_, ?_, ?_⟩
  · simp only [ftpCandidates, if_pos h]
    rfl
  · intro i hi b hprev hok
    exact retrLoop_ok_of_first retr (ftpCandidates filename p) none i hi b hprev hok
  · intro clast e hall hlast hle
    exact retrLoop_error_of_all retr (ftpCandidates filename p) none clast e hall hlast hle

/-- C10 witness: with prefix `base/sub` and filename `a.txt`, a server on
which only the absolute variant `/a.txt` succeeds makes the download succeed
with that file's bytes, and a server on which every variant fails makes it
raise the last variant's error. -/
theorem c10_ftp_retr_fallbacks_witness :
    retrWithFallbacks
      (fun s => if s = "/a.txt" then .ok 42 else (.error 0 : Except Nat Nat))
      "a.txt" "base/sub" = .ok (some 42) ∧
    retrWithFallbacks (fun _ => (.error 7 : Except Nat Nat)) "a.txt" "base/sub" =
      .error 7 := by
  constructor
  · refine (c10_ftp_retr_fallbacks
      (fun s => if s = "/a.txt" then .ok 42 else (.error 0 : Except Nat Nat))
      "a.txt" "base/sub").2.1 2 (by decide) 42 ?_ rfl
    intro j hj
    interval_cases j
    · exact ⟨0, rfl⟩
    · exact ⟨0, rfl⟩
  · refine (c10_ftp_retr_fallbacks (fun _ => (.error 7 : Except Nat Nat))
      "a.txt" "base/sub").2.2 "/base/sub/a.txt" 7 (fun c _ => ⟨7, rfl⟩) (by decide) rfl

/-- C8 witness: the scenario with the identity in place of the SHA-256 hex
digest. -/
theorem c8_dropbox_auth_code_exchange_witness :
    dropboxGetDbx (fun s => s) (fun _ => none)
      (fun p => if p = TokenPayload.authCode "code123" then
          .ok ⟨some "r1", some "a1"⟩
        else .error "unexpected")
      (fun s => if s = dropboxScenarioJson then
          some [("app_key", "k"), ("app_secret", "s"), ("authorization_code", "code123")]
        else none)
      dropboxScenarioJson
    = (.ok (.oauth "a1" "r1" "k" "s"),
       ⟨[TokenPayload.authCode "code123"], [("k:s", ⟨"k", "r1", some "a1"⟩)]⟩) :=
  c8_dropbox_auth_code_exchange (fun s => s)

/-- C9 witness: batches with an always-raising byte/progress callback return
exactly what the callback-free batches return. -/
theorem c9_callbacks_never_abort_witness :
    supabaseUploadMany (fun _ _ _ _ => .ok ()) (fun s => s) (fun _ => none) none
      [⟨"a.png", [1]⟩] "bkt" "d"
      (some (fun _ => (.error 0 : Except Nat Unit))) (some (fun _ => .error 0)) 0 =
    supabaseUploadMany (fun _ _ _ _ => .ok ()) (fun s => s) (fun _ => none) none
      [⟨"a.png", [1]⟩] "bkt" "d" (none : Option (ItemEvent → Except Unit Unit))
      (none : Option (ByteEvent → Except Unit Unit)) 0 ∧
    utUploadMany (fun _ => (.ok [] : Except String (List (Option UTPresignItem))))
      (fun _ _ _ => .ok ()) (fun _ _ _ => .ok ()) (fun _ => none)
      [⟨"a.png", [1]⟩] "d"
      (some (fun _ => (.error 0 : Except Nat Unit))) (some (fun _ => .error 0)) =
    utUploadMany (fun _ => (.ok [] : Except String (List (Option UTPresignItem))))
      (fun _ _ _ => .ok ()) (fun _ _ _ => .ok ()) (fun _ => none)
      [⟨"a.png", [1]⟩] "d" (none : Option (ItemEvent → Except Unit Unit))
      (none : Option (ByteEvent → Except Unit Unit)) :=
  c9_callbacks_never_abort (fun _ _ _ _ => .ok ()) (fun s => s) (fun _ => none) none
    (fun _ => .ok []) (fun _ _ _ => .ok ()) (fun _ _ _ => .ok ())
    [⟨"a.png", [1]⟩] "bkt" "d"
    (some (fun _ => .error 0)) (some (fun _ => .error 0)) none none

end SaveFileExtended
